import Mathlib

set_option maxRecDepth 8192

/-!
Verification of the AgriAssist AI frontend controller (src/frontend/app.js).

The JavaScript is shallowly embedded. DOM state is a record, each event
handler is a state transition, and every network-calling flow emits a trace
of primitive effects that an interpreter folds over the state. A network
call resolves to one of three outcomes: a parsed success payload, a parsed
application-level failure (a success false body with an error field), or a
thrown or rejected exception from the transport or the JSON parse.
-/

/-- Characters removed by the JavaScript String trim method: the WhiteSpace
and LineTerminator productions of the language. -/
def jsWhitespace (c : Char) : Bool :=
  c == ' ' || c == '\t' || c == '\n' || c == '\r' || c == '\u000B' || c == '\u000C' ||
    c == '\u00A0' || c == '\uFEFF' || c == '\u1680' ||
    (0x2000 ≤ c.toNat && c.toNat ≤ 0x200A) ||
    c == '\u2028' || c == '\u2029' || c == '\u202F' || c == '\u205F' || c == '\u3000'

/-- Embedding of the trim call applied to the chat input value. -/
def jsTrim (s : String) : String :=
  String.mk (((s.data.dropWhile jsWhitespace).reverse.dropWhile jsWhitespace).reverse)

/-- One rendered message element of the chat transcript. -/
structure ChatEntry where
  className : String
  innerHTML : String
deriving Repr, DecidableEq

/-- The chatMessages container: its children and whether scrollTop was last
set to scrollHeight, so the newest entry is in view. -/
structure ChatBox where
  messages : List ChatEntry
  scrolledToBottom : Bool
deriving Repr, DecidableEq

/-- Icon markup chosen by addMessageToChat from the sender tag. -/
def iconFor (sender : String) : String :=
  if sender = "bot" then "<i class=\"fas fa-robot\"></i>" else "<i class=\"fas fa-user\"></i>"

/-- The innerHTML template of addMessageToChat, with the message text
interpolated verbatim into the markup. -/
def messageHtml (message sender : String) : String :=
  "\n        " ++ iconFor sender ++
    "\n        <div class=\"message-content\">\n            <p>" ++
    message ++ "</p>\n        </div>\n    "

/-- Embedding of addMessageToChat: build the div with a sender-derived class,
append it, and scroll the container to the bottom. -/
def addMessageToChat (message sender : String) (box : ChatBox) : ChatBox :=
  { messages := box.messages ++
      [{ className := "message " ++ sender ++ "-message",
         innerHTML := messageHtml message sender }],
    scrolledToBottom := true }

/-- The JSON body sent to the chat endpoint. -/
structure ChatRequest where
  message : String
  session_id : String
  language : String
deriving Repr, DecidableEq

/-- A File object as the handlers see it: its declared MIME type and the
data URL a FileReader would produce from its contents. -/
structure JsFile where
  type : String
  dataUrl : String
deriving Repr, DecidableEq

/-- The multipart form sent to the analyze-crop endpoint. -/
structure AnalyzeRequest where
  image : JsFile
  location : String
  language : String
deriving Repr, DecidableEq

/-- The query parameters sent to the farming-tips endpoint. -/
structure TipsRequest where
  crop : String
  season : String
  language : String
deriving Repr, DecidableEq

/-- A value of the structured tips mapping: a plain string or an array of
strings. -/
inductive TipsEntry where
  | str (s : String)
  | arr (xs : List String)
deriving Repr, DecidableEq

/-- The tips field of a tips response: a plain string or a key-value
mapping, in insertion order as Object.entries iterates it. -/
inductive TipsValue where
  | str (s : String)
  | obj (entries : List (String × TipsEntry))
deriving Repr, DecidableEq

/-- The analysis field of an analyze-crop response: either an object with a
nested analysis string or the string itself. -/
inductive AnalysisPayload where
  | nested (analysis : String)
  | plain (s : String)
deriving Repr, DecidableEq

/-- Outcome of one awaited fetch plus JSON parse. -/
inductive NetOutcome (α : Type) where
  | success (payload : α)
  | failure (error : String)
  | thrown
deriving Repr, DecidableEq

/-- Line terminators that the dot of a JavaScript regular expression does
not match. -/
def jsLineTerm (c : Char) : Bool :=
  c == '\n' || c == '\r' || c == '\u2028' || c == '\u2029'

/-- Lazy search for the first closing double star with no line terminator
before it, as the non-greedy dot-star matches. -/
def findClose : List Char → Option (List Char × List Char)
  | [] => none
  | '*' :: '*' :: rest => some ([], rest)
  | c :: rest =>
    if jsLineTerm c then none
    else
      match findClose rest with
      | some (content, rest2) => some (c :: content, rest2)
      | none => none

/-- Global scan of the double-star-to-strong replacement; the fuel bounds
recursion and the initial call supplies the list length, which suffices
because every step consumes at least one character. -/
def strongScan : Nat → List Char → List Char
  | 0, cs => cs
  | _ + 1, [] => []
  | fuel + 1, '*' :: '*' :: rest =>
    match findClose rest with
    | some (content, rest2) =>
      "<strong>".data ++ content ++ "</strong>".data ++ strongScan fuel rest2
    | none => '*' :: strongScan fuel ('*' :: rest)
  | fuel + 1, c :: rest => c :: strongScan fuel rest

/-- Embedding of the bold-span regex replacement in formatAnalysis. -/
def jsStrongReplace (s : String) : String :=
  String.mk (strongScan s.data.length s.data)

/-- Embedding of the formatting chain of formatAnalysis on the analysis
text: bold spans, blank lines to paragraph breaks, newlines to br tags. -/
def formatAnalysisText (analysis : String) : String :=
  let formatted := ((jsStrongReplace analysis).replace "\n\n" "</p><p>").replace "\n" "<br>"
  "<div class=\"analysis-text\"><p>" ++ formatted ++ "</p></div>"

/-- Embedding of formatAnalysis, resolving the nested-or-plain fallback on
the payload before formatting. -/
def formatAnalysis : AnalysisPayload → String
  | .nested a => formatAnalysisText a
  | .plain s => formatAnalysisText s

/-- Embedding of the heading transformation of formatTips: every underscore
to a space (the global single-character replace), then upper-cased. -/
def tipHeading (key : String) : String :=
  String.mk ((key.data.map (fun c => if c == '_' then ' ' else c)).map Char.toUpper)

/-- Embedding of one tip-section block appended by the formatTips loop. -/
def tipSection (key : String) (value : TipsEntry) : String :=
  "\n            <div class=\"tip-section\">\n                <h4>" ++ tipHeading key ++
    "</h4>\n                <p>" ++
    (match value with
     | .arr xs => String.intercalate "<br>" xs
     | .str s => s) ++
    "</p>\n            </div>\n        "

/-- Embedding of formatTips. -/
def formatTips : TipsValue → String
  | .str tips => "<div class=\"tips-text\">" ++ tips ++ "</div>"
  | .obj entries =>
    "<div class=\"structured-tips\">" ++
      String.join (entries.map (fun kv => tipSection kv.1 kv.2)) ++ "</div>"

/-- The tab buttons and tab panes: each element keeps its tag (the dataset
tab of a button, the id of a pane) and whether it carries the active
class. -/
structure TabsDom where
  btns : List (String × Bool)
  panes : List (String × Bool)
deriving Repr, DecidableEq

/-- classList remove of active on every element of a collection. -/
def deactivateAll (l : List (String × Bool)) : List (String × Bool) :=
  l.map (fun p => (p.1, false))

/-- classList add of active on the first element carrying the id, as
getElementById resolves it. -/
def activateFirst (target : String) : List (String × Bool) → List (String × Bool)
  | [] => []
  | p :: rest =>
    if p.1 = target then (p.1, true) :: rest
    else p :: activateFirst target rest

/-- Embedding of the click listener installed by initializeTabs on button i:
read the dataset tab, deactivate everything, activate the clicked button and
the pane found by id. -/
def clickTab (d : TabsDom) (i : Nat) : TabsDom :=
  let target := (d.btns.getD i ("", false)).1
  { btns := (deactivateAll d.btns).set i (target, true),
    panes := activateFirst target (deactivateAll d.panes) }

/-- Folding a whole sequence of tab-button clicks. -/
def runTabs (d : TabsDom) (clicks : List Nat) : TabsDom :=
  clicks.foldl clickTab d

/-- Number of elements of a collection carrying the active class. -/
def countActive (l : List (String × Bool)) : Nat :=
  l.countP (fun p => p.2)

/-- The image-upload widgets: the file held by the input element, the
preview visibility and source, the upload prompt visibility, and the
disabled flag of the analyze button. -/
structure UploadState where
  inputFile : Option JsFile
  previewShown : Bool
  previewSrc : String
  uploadAreaShown : Bool
  analyzeDisabled : Bool
deriving Repr, DecidableEq

/-- Embedding of handleImageSelect: the FileReader load callback renders the
data URL as the preview, hides the prompt, and enables analyze. -/
def handleImageSelect (file : JsFile) (st : UploadState) : UploadState :=
  { st with previewSrc := file.dataUrl, uploadAreaShown := false,
            previewShown := true, analyzeDisabled := false }

/-- Character-list core of the JavaScript startsWith test. -/
def strHeadMatches : List Char → List Char → Bool
  | _, [] => true
  | [], _ :: _ => false
  | c :: cs, d :: ds => c == d && strHeadMatches cs ds

/-- Embedding of the startsWith call on a declared MIME type. -/
def jsStartsWith (s pat : String) : Bool :=
  strHeadMatches s.data pat.data

/-- Embedding of the drop listener: a dropped file is handled only when its
declared type starts with the five letters image and a slash; the input
element is not assigned. -/
def dropFile (file : Option JsFile) (st : UploadState) : UploadState :=
  match file with
  | some f => if jsStartsWith f.type "image/" then handleImageSelect f st else st
  | none => st

/-- Embedding of the file-input change listener: the input element now holds
the picked files, and any present first file is handled with no check of its
type. -/
def changeFile (file : Option JsFile) (st : UploadState) : UploadState :=
  let st2 := { st with inputFile := file }
  match file with
  | some f => handleImageSelect f st2
  | none => st2

/-- Embedding of the remove-image click listener. -/
def removeImageClick (st : UploadState) : UploadState :=
  { st with inputFile := none, previewShown := false, uploadAreaShown := true,
            analyzeDisabled := true }

/-- The page state the controller manipulates: the two module globals, the
tab and upload widgets, the chat widgets, form values, result areas, the
loading overlay, and the alerts raised so far. -/
structure AppState where
  currentLanguage : String
  sessionId : String
  langLabel : String
  tabs : TabsDom
  upload : UploadState
  chatInput : String
  chat : ChatBox
  locationInput : String
  cropSelect : String
  seasonSelect : String
  resultsContent : String
  resultsVisible : Bool
  resultsScrolled : Bool
  tipsContent : String
  tipsVisible : Bool
  overlayVisible : Bool
  alerts : List String
deriving Repr, DecidableEq

/-- Primitive effects a flow performs, in program order. -/
inductive Eff where
  | showLoading (b : Bool)
  | fetchChat (req : ChatRequest)
  | fetchAnalyze (req : AnalyzeRequest)
  | fetchTips (req : TipsRequest)
  | alertMsg (s : String)
  | consoleError
  | appendChat (message sender : String)
  | setChatInput (s : String)
  | setResults (html : String)
  | scrollResults
  | setTips (html : String)
deriving Repr, DecidableEq

/-- Interpretation of one effect on the page state. -/
def applyEff (st : AppState) : Eff → AppState
  | .showLoading b => { st with overlayVisible := b }
  | .fetchChat _ => st
  | .fetchAnalyze _ => st
  | .fetchTips _ => st
  | .alertMsg s => { st with alerts := st.alerts ++ [s] }
  | .consoleError => st
  | .appendChat m sender => { st with chat := addMessageToChat m sender st.chat }
  | .setChatInput s => { st with chatInput := s }
  | .setResults h => { st with resultsContent := h, resultsVisible := true }
  | .scrollResults => { st with resultsScrolled := true }
  | .setTips h => { st with tipsContent := h, tipsVisible := true }

/-- Folding a trace of effects over the page state. -/
def runEffs (st : AppState) (es : List Eff) : AppState :=
  es.foldl applyEff st

/-- Fallback transcript text appended on a success false chat response. -/
def chatFailureFallback : String := "Sorry, I encountered an error. Please try again."

/-- Fallback transcript text appended when the chat fetch or parse throws. -/
def connectionFailureFallback : String := "Connection error. Please check your internet and try again."

/-- Embedding of sendMessage as the effect trace of one invocation under the
given network outcome. -/
def sendMessage (st : AppState) (net : NetOutcome String) : List Eff :=
  let message := jsTrim st.chatInput
  if message = "" then []
  else
    [Eff.appendChat message "user", Eff.setChatInput "", Eff.showLoading true,
     Eff.fetchChat { message := message, session_id := st.sessionId,
                     language := st.currentLanguage }] ++
    (match net with
     | .success resp => [Eff.appendChat resp "bot"]
     | .failure _ => [Eff.appendChat chatFailureFallback "bot"]
     | .thrown => [Eff.consoleError, Eff.appendChat connectionFailureFallback "bot"]) ++
    [Eff.showLoading false]

/-- Embedding of analyzeCrop as the effect trace of one invocation under the
given network outcome. -/
def analyzeCrop (st : AppState) (net : NetOutcome AnalysisPayload) : List Eff :=
  let location := if st.locationInput = "" then "Kenya" else st.locationInput
  match st.upload.inputFile with
  | none => [Eff.alertMsg "Please select an image first"]
  | some f =>
    [Eff.showLoading true,
     Eff.fetchAnalyze { image := f, location := location, language := st.currentLanguage }] ++
    (match net with
     | .success payload => [Eff.setResults (formatAnalysis payload), Eff.scrollResults]
     | .failure err => [Eff.alertMsg ("Analysis failed: " ++ err)]
     | .thrown => [Eff.consoleError, Eff.alertMsg "Failed to analyze image. Please try again."]) ++
    [Eff.showLoading false]

/-- Embedding of getFarmingTips as the effect trace of one invocation under
the given network outcome. -/
def getFarmingTips (st : AppState) (net : NetOutcome TipsValue) : List Eff :=
  [Eff.showLoading true,
   Eff.fetchTips { crop := st.cropSelect, season := st.seasonSelect,
                   language := st.currentLanguage }] ++
  (match net with
   | .success tips => [Eff.setTips (formatTips tips)]
   | .failure err => [Eff.alertMsg ("Failed to get tips: " ++ err)]
   | .thrown => [Eff.consoleError, Eff.alertMsg "Failed to fetch farming tips."]) ++
  [Eff.showLoading false]

/-- Embedding of the langToggle click listener from
initializeLanguageToggle. -/
def langToggleClick (st : AppState) : AppState :=
  let newLang := if st.currentLanguage = "en" then "sw" else "en"
  { st with currentLanguage := newLang,
            langLabel := "<i class=\"fas fa-globe\"></i> " ++
              (if newLang = "en" then "English" else "Kiswahili") }

/-- Embedding of generateSessionId; ts stands for the Date.now value and
rand for the base36 random suffix. -/
def generateSessionId (ts : Nat) (rand : String) : String :=
  "session_" ++ toString ts ++ "_" ++ rand

/-- Module-load initialization of the two globals over the pre-load document
state. -/
def initState (ts : Nat) (rand : String) (st0 : AppState) : AppState :=
  { st0 with currentLanguage := "en", sessionId := generateSessionId ts rand }

/-- Every user-triggered event the page reacts to; network flows carry the
outcome their awaited call resolves to. -/
inductive UserAction where
  | clickTabBtn (i : Nat)
  | dropUpload (file : Option JsFile)
  | pickUpload (file : Option JsFile)
  | removeImage
  | typeChat (s : String)
  | typeLocation (s : String)
  | selectCrop (s : String)
  | selectSeason (s : String)
  | send (net : NetOutcome String)
  | analyze (net : NetOutcome AnalysisPayload)
  | getTips (net : NetOutcome TipsValue)
  | toggleLanguage
deriving Repr, DecidableEq

/-- Dispatch of one user action: the next page state and the effect trace
the handler emitted. -/
def appStep (st : AppState) : UserAction → AppState × List Eff
  | .clickTabBtn i => ({ st with tabs := clickTab st.tabs i }, [])
  | .dropUpload f => ({ st with upload := dropFile f st.upload }, [])
  | .pickUpload f => ({ st with upload := changeFile f st.upload }, [])
  | .removeImage => ({ st with upload := removeImageClick st.upload }, [])
  | .typeChat s => ({ st with chatInput := s }, [])
  | .typeLocation s => ({ st with locationInput := s }, [])
  | .selectCrop s => ({ st with cropSelect := s }, [])
  | .selectSeason s => ({ st with seasonSelect := s }, [])
  | .send net => (runEffs st (sendMessage st net), sendMessage st net)
  | .analyze net => (runEffs st (analyzeCrop st net), analyzeCrop st net)
  | .getTips net => (runEffs st (getFarmingTips st net), getFarmingTips st net)
  | .toggleLanguage => (langToggleClick st, [])

/-- State after a whole sequence of user actions. -/
def runActions (st : AppState) : List UserAction → AppState
  | [] => st
  | a :: rest => runActions (appStep st a).1 rest

/-- Concatenated effect trace of a whole sequence of user actions. -/
def traceActions (st : AppState) : List UserAction → List Eff
  | [] => []
  | a :: rest => (appStep st a).2 ++ traceActions (appStep st a).1 rest

/-- A concrete page state used to instantiate hypotheses of the theorems
below on explicit inputs. -/
def sampleApp : AppState :=
  { currentLanguage := "en", sessionId := "session_1700000000000_q1w2e3r4t",
    langLabel := "<i class=\"fas fa-globe\"></i> English",
    tabs := { btns := [("analyze", true), ("chat", false), ("tips", false)],
              panes := [("analyze", true), ("chat", false), ("tips", false)] },
    upload := { inputFile := none, previewShown := false, previewSrc := "",
                uploadAreaShown := true, analyzeDisabled := true },
    chatInput := "", chat := { messages := [], scrolledToBottom := false },
    locationInput := "", cropSelect := "maize", seasonSelect := "rainy",
    resultsContent := "", resultsVisible := false, resultsScrolled := false,
    tipsContent := "", tipsVisible := false, overlayVisible := false, alerts := [] }

/-- The transcript entry addMessageToChat builds for a user message. -/
def userEntry (m : String) : ChatEntry :=
  { className := "message user-message", innerHTML := messageHtml m "user" }

/-- The transcript entry addMessageToChat builds for a bot message. -/
def botEntry (m : String) : ChatEntry :=
  { className := "message bot-message", innerHTML := messageHtml m "bot" }

/-- Recognizer of the effect that hides the loading overlay. -/
def isHideLoading : Eff → Bool
  | .showLoading false => true
  | _ => false

/-- A concrete image file for instantiating hypotheses. -/
def imageFile : JsFile :=
  { type := "image/png", dataUrl := "data:image/png;base64,iVBORw0KGgo=" }

/-- A concrete non-image file for instantiating hypotheses. -/
def nonImageFile : JsFile :=
  { type := "text/plain", dataUrl := "data:text/plain;base64,SGk=" }

/-! ## General lemmas about the interpreter -/

theorem runEffs_append (st : AppState) (es1 es2 : List Eff) :
    runEffs st (es1 ++ es2) = runEffs (runEffs st es1) es2 :=
  List.foldl_append applyEff st es1 es2

theorem sessionId_applyEff (st : AppState) (e : Eff) :
    (applyEff st e).sessionId = st.sessionId := by
  cases e <;> rfl

theorem sessionId_runEffs (es : List Eff) : ∀ st : AppState,
    (runEffs st es).sessionId = st.sessionId := by
  induction es with
  | nil => intro st; rfl
  | cons e rest ih =>
    intro st
    show (runEffs (applyEff st e) rest).sessionId = st.sessionId
    rw [ih, sessionId_applyEff]

/-! ## Claim C10 -/

/-- Claim C10: appending a transcript entry interpolates the message
verbatim into the entry markup with no escaping, derives the entry class
from the sender tag, and scrolls the transcript to the newest entry. The
entry markup is a fixed head, the message text unchanged, and a fixed
tail, so markup inside the message becomes markup in the document. -/
theorem addMessageToChat_claim (message sender : String) (box : ChatBox) :
    (addMessageToChat message sender box).messages = box.messages ++
      [{ className := "message " ++ sender ++ "-message",
         innerHTML :=
           ("\n        " ++ iconFor sender ++
              "\n        <div class=\"message-content\">\n            <p>") ++
             message ++ "</p>\n        </div>\n    " }] ∧
    (addMessageToChat message sender box).scrolledToBottom = true := by
  constructor
  · simp [addMessageToChat, messageHtml]
  · rfl

/-! ## Claim C7 -/

/-- Claim C7: a plain-string tips payload is rendered verbatim inside the
wrapper with no escaping; a structured mapping renders each key as a
heading with underscores replaced by spaces and upper-cased, and each
array value joined by br line breaks; the watering example renders a
WATERING section containing daily and morning joined by a line break. -/
theorem formatTips_claim :
    (∀ tips, formatTips (.str tips) = "<div class=\"tips-text\">" ++ tips ++ "</div>") ∧
    (∀ key xs, tipSection key (.arr xs) =
      "\n            <div class=\"tip-section\">\n                <h4>" ++ tipHeading key ++
        "</h4>\n                <p>" ++ String.intercalate "<br>" xs ++
        "</p>\n            </div>\n        ") ∧
    tipHeading "watering_schedule" = "WATERING SCHEDULE" ∧
    String.intercalate "<br>" ["daily", "morning"] = "daily<br>morning" ∧
    formatTips (.obj [("watering", .arr ["daily", "morning"])]) =
      "<div class=\"structured-tips\">\n            <div class=\"tip-section\">\n                <h4>WATERING</h4>\n                <p>daily<br>morning</p>\n            </div>\n        </div>" := by
  refine ⟨fun tips => rfl, fun key xs => rfl, by decide, by decide, by decide⟩

/-! ## Claim C8 -/

/-- Claim C8: the language toggle is an involution over the two-valued
flag, one click maps en to sw and a second click maps sw back to en, the
visible label always matches the current value after a click, and a toggle
leaves all rendered content and the session identifier unchanged. -/
theorem langToggleClick_claim (st : AppState)
    (h : st.currentLanguage = "en" ∨ st.currentLanguage = "sw") :
    (st.currentLanguage = "en" → (langToggleClick st).currentLanguage = "sw") ∧
    (st.currentLanguage = "sw" → (langToggleClick st).currentLanguage = "en") ∧
    (langToggleClick (langToggleClick st)).currentLanguage = st.currentLanguage ∧
    (∀ s : AppState, (langToggleClick s).langLabel =
      "<i class=\"fas fa-globe\"></i> " ++
        (if (langToggleClick s).currentLanguage = "en" then "English" else "Kiswahili")) ∧
    (langToggleClick st).chat = st.chat ∧
    (langToggleClick st).resultsContent = st.resultsContent ∧
    (langToggleClick st).tipsContent = st.tipsContent ∧
    (langToggleClick st).sessionId = st.sessionId := by
  refine ⟨fun he => by simp [langToggleClick, he],
          fun hs => by simp [langToggleClick, hs],
          ?_, fun s => ?_, rfl, rfl, rfl, rfl⟩
  · rcases h with he | hs
    · simp [langToggleClick, he]
    · simp [langToggleClick, hs]
  · by_cases hc : s.currentLanguage = "en" <;> simp [langToggleClick, hc]

/-- Witness for claim C8 at a concrete state. -/
theorem langToggleClick_claim_witness :
    (sampleApp.currentLanguage = "en" ∨ sampleApp.currentLanguage = "sw") ∧
    (langToggleClick sampleApp).currentLanguage = "sw" ∧
    (langToggleClick (langToggleClick sampleApp)).currentLanguage = sampleApp.currentLanguage :=
  ⟨Or.inl rfl,
   (langToggleClick_claim sampleApp (Or.inl rfl)).1 rfl,
   (langToggleClick_claim sampleApp (Or.inl rfl)).2.2.1⟩

/-! ## Claim C4 -/

/-- Claim C4: for a chat input that trims to the empty string, invoking
send emits no effects at all, so the transcript is unchanged, no network
request is made, and the loading indicator is never shown. -/
theorem sendMessage_blank_claim (st : AppState) (net : NetOutcome String)
    (h : jsTrim st.chatInput = "") :
    sendMessage st net = [] ∧
    runEffs st (sendMessage st net) = st ∧
    (runEffs st (sendMessage st net)).chat.messages = st.chat.messages ∧
    (∀ req, Eff.fetchChat req ∉ sendMessage st net) ∧
    (∀ b, Eff.showLoading b ∉ sendMessage st net) := by
  have hnil : sendMessage st net = [] := by simp [sendMessage, h]
  refine ⟨hnil, by rw [hnil]; rfl, by rw [hnil]; rfl, ?_, ?_⟩
  · intro req; rw [hnil]; exact List.not_mem_nil _
  · intro b; rw [hnil]; exact List.not_mem_nil _

/-- Witness for claim C4 at a concrete whitespace-only input. -/
theorem sendMessage_blank_claim_witness :
    jsTrim ({ sampleApp with chatInput := "   \n\t " } : AppState).chatInput = "" ∧
    sendMessage { sampleApp with chatInput := "   \n\t " } (.success "hi") = [] :=
  ⟨by decide,
   (sendMessage_blank_claim { sampleApp with chatInput := "   \n\t " } (.success "hi")
     (by decide)).1⟩

/-! ## Claim C5 -/

/-- Claim C5: for a non-blank chat input, send first appends a user-tagged
entry carrying the exact trimmed text and clears the input field, before
the network call and its outcome; consequently the user bubble sits in the
final transcript right after the previous entries whatever the outcome. -/
theorem sendMessage_user_bubble_claim (st : AppState) (net : NetOutcome String)
    (h : jsTrim st.chatInput ≠ "") :
    (∃ rest, sendMessage st net =
      Eff.appendChat (jsTrim st.chatInput) "user" :: Eff.setChatInput "" ::
        Eff.showLoading true ::
        Eff.fetchChat { message := jsTrim st.chatInput, session_id := st.sessionId,
                        language := st.currentLanguage } :: rest) ∧
    (runEffs st [Eff.appendChat (jsTrim st.chatInput) "user",
        Eff.setChatInput ""]).chat.messages =
      st.chat.messages ++ [userEntry (jsTrim st.chatInput)] ∧
    (runEffs st [Eff.appendChat (jsTrim st.chatInput) "user",
        Eff.setChatInput ""]).chatInput = "" ∧
    (∃ tail, (runEffs st (sendMessage st net)).chat.messages =
      st.chat.messages ++ userEntry (jsTrim st.chatInput) :: tail) := by
  refine ⟨?_, ?_, rfl, ?_⟩
  · cases net with
    | success resp =>
      exact ⟨[Eff.appendChat resp "bot", Eff.showLoading false], by simp [sendMessage, h]⟩
    | failure err =>
      exact ⟨[Eff.appendChat chatFailureFallback "bot", Eff.showLoading false],
        by simp [sendMessage, h]⟩
    | thrown =>
      exact ⟨[Eff.consoleError, Eff.appendChat connectionFailureFallback "bot",
        Eff.showLoading false], by simp [sendMessage, h]⟩
  · simp [runEffs, applyEff, addMessageToChat, userEntry]
  · cases net with
    | success resp =>
      exact ⟨[botEntry resp],
        by simp [sendMessage, h, runEffs, applyEff, addMessageToChat, userEntry, botEntry]⟩
    | failure err =>
      exact ⟨[botEntry chatFailureFallback],
        by simp [sendMessage, h, runEffs, applyEff, addMessageToChat, userEntry, botEntry]⟩
    | thrown =>
      exact ⟨[botEntry connectionFailureFallback],
        by simp [sendMessage, h, runEffs, applyEff, addMessageToChat, userEntry, botEntry]⟩

/-- Witness for claim C5 at the concrete message hello. -/
theorem sendMessage_user_bubble_claim_witness :
    jsTrim ({ sampleApp with chatInput := "hello" } : AppState).chatInput ≠ "" ∧
    (∃ tail,
      (runEffs { sampleApp with chatInput := "hello" }
          (sendMessage { sampleApp with chatInput := "hello" } (.thrown))).chat.messages =
        ({ sampleApp with chatInput := "hello" } : AppState).chat.messages ++
          userEntry (jsTrim ({ sampleApp with chatInput := "hello" } : AppState).chatInput)
            :: tail) :=
  ⟨by decide,
   (sendMessage_user_bubble_claim { sampleApp with chatInput := "hello" } .thrown
     (by decide)).2.2.2⟩

/-! ## Claim C6 -/

/-- Claim C6: on a chat failure, whether an application-level success false
payload or a thrown exception, exactly one bot-tagged entry carrying the
fixed fallback text for that path is appended after the user bubble; the
trace is independent of the server error text, so raw error details never
reach the transcript, and no alert is raised. -/
theorem sendMessage_failure_claim (st : AppState) (e1 e2 : String)
    (h : jsTrim st.chatInput ≠ "") :
    (runEffs st (sendMessage st (.failure e1))).chat.messages =
      st.chat.messages ++ [userEntry (jsTrim st.chatInput), botEntry chatFailureFallback] ∧
    (runEffs st (sendMessage st .thrown)).chat.messages =
      st.chat.messages ++
        [userEntry (jsTrim st.chatInput), botEntry connectionFailureFallback] ∧
    sendMessage st (.failure e1) = sendMessage st (.failure e2) ∧
    (∀ s, Eff.alertMsg s ∉ sendMessage st (.failure e1)) ∧
    (∀ s, Eff.alertMsg s ∉ sendMessage st .thrown) ∧
    (runEffs st (sendMessage st (.failure e1))).chat.messages.countP
        (fun en => en.className == "message bot-message") =
      st.chat.messages.countP (fun en => en.className == "message bot-message") + 1 ∧
    (runEffs st (sendMessage st .thrown)).chat.messages.countP
        (fun en => en.className == "message bot-message") =
      st.chat.messages.countP (fun en => en.className == "message bot-message") + 1 := by
  have hfail : (runEffs st (sendMessage st (.failure e1))).chat.messages =
      st.chat.messages ++ [userEntry (jsTrim st.chatInput), botEntry chatFailureFallback] := by
    simp [sendMessage, h, runEffs, applyEff, addMessageToChat, userEntry, botEntry]
  have hthr : (runEffs st (sendMessage st .thrown)).chat.messages =
      st.chat.messages ++
        [userEntry (jsTrim st.chatInput), botEntry connectionFailureFallback] := by
    simp [sendMessage, h, runEffs, applyEff, addMessageToChat, userEntry, botEntry]
  refine ⟨hfail, hthr, by simp [sendMessage], ?_, ?_, ?_, ?_⟩
  · intro s; simp [sendMessage, h]
  · intro s; simp [sendMessage, h]
  · rw [hfail]
    simp [List.countP_append, List.countP_cons, userEntry, botEntry]
  · rw [hthr]
    simp [List.countP_append, List.countP_cons, userEntry, botEntry]

/-- Witness for claim C6 at a concrete message and error text. -/
theorem sendMessage_failure_claim_witness :
    jsTrim ({ sampleApp with chatInput := "hello" } : AppState).chatInput ≠ "" ∧
    (runEffs { sampleApp with chatInput := "hello" }
        (sendMessage { sampleApp with chatInput := "hello" } (.failure "boom"))).chat.messages =
      ({ sampleApp with chatInput := "hello" } : AppState).chat.messages ++
        [userEntry (jsTrim ({ sampleApp with chatInput := "hello" } : AppState).chatInput),
         botEntry chatFailureFallback] :=
  ⟨by decide,
   (sendMessage_failure_claim { sampleApp with chatInput := "hello" } "boom" "kaboom"
     (by decide)).1⟩

/-! ## Claim C3 -/

/-- Counterexample to claim C3: offering a non-image file through the file
picker is accepted, not ignored: the change listener renders the preview
and enables analyze although the declared MIME type is not an image
type. -/
theorem pickUpload_accepts_non_image :
    jsStartsWith nonImageFile.type "image/" = false ∧
    sampleApp.upload.previewShown = false ∧
    sampleApp.upload.analyzeDisabled = true ∧
    (changeFile (some nonImageFile) sampleApp.upload).previewShown = true ∧
    (changeFile (some nonImageFile) sampleApp.upload).analyzeDisabled = false := by
  decide

/-- Claim C3 as amended: only the drag-drop path filters on the declared
MIME type — a non-image drop is silently ignored and leaves the state
unchanged — while the file picker accepts any present file without a type
check; every accepted file renders its preview and enables analyze. -/
theorem image_select_claim_amended (f : JsFile) (st : UploadState)
    (hni : jsStartsWith f.type "image/" = false) :
    dropFile (some f) st = st ∧
    dropFile none st = st ∧
    (∀ g : JsFile, jsStartsWith g.type "image/" = true →
      dropFile (some g) st = handleImageSelect g st) ∧
    (∀ g : JsFile, changeFile (some g) st =
      handleImageSelect g { st with inputFile := some g }) ∧
    (∀ g : JsFile, (handleImageSelect g st).previewShown = true ∧
      (handleImageSelect g st).analyzeDisabled = false ∧
      (handleImageSelect g st).previewSrc = g.dataUrl) := by
  refine ⟨by simp [dropFile, hni], rfl, fun g hg => by simp [dropFile, hg],
          fun g => rfl, fun g => ⟨rfl, rfl, rfl⟩⟩

/-- Witness for the amended claim C3 at a concrete non-image file. -/
theorem image_select_claim_amended_witness :
    jsStartsWith nonImageFile.type "image/" = false ∧
    dropFile (some nonImageFile) sampleApp.upload = sampleApp.upload :=
  ⟨by decide,
   (image_select_claim_amended nonImageFile sampleApp.upload (by decide)).1⟩

/-! ## Claim C1 -/

/-- Claim C1: every network-calling flow invocation, under every outcome of
the awaited call, emits the overlay-hiding effect exactly once, and the
overlay is hidden in the state after the invocation; the chat flow is taken
at a non-blank input and the image flow with a file selected, the two
conditions under which those flows reach their network call. -/
theorem loading_cleared_claim (st : AppState) (netC : NetOutcome String)
    (netA : NetOutcome AnalysisPayload) (netT : NetOutcome TipsValue) (f : JsFile)
    (hmsg : jsTrim st.chatInput ≠ "") (himg : st.upload.inputFile = some f) :
    ((sendMessage st netC).countP isHideLoading = 1 ∧
      (runEffs st (sendMessage st netC)).overlayVisible = false) ∧
    ((analyzeCrop st netA).countP isHideLoading = 1 ∧
      (runEffs st (analyzeCrop st netA)).overlayVisible = false) ∧
    ((getFarmingTips st netT).countP isHideLoading = 1 ∧
      (runEffs st (getFarmingTips st netT)).overlayVisible = false) := by
  refine ⟨⟨?_, ?_⟩, ⟨?_, ?_⟩, ⟨?_, ?_⟩⟩
  · cases netC <;>
      simp [sendMessage, hmsg, isHideLoading, List.countP_cons, List.countP_append]
  · cases netC <;>
      simp [sendMessage, hmsg, runEffs, applyEff]
  · cases netA <;>
      simp [analyzeCrop, himg, isHideLoading, List.countP_cons, List.countP_append]
  · cases netA <;>
      simp [analyzeCrop, himg, runEffs, applyEff]
  · cases netT <;>
      simp [getFarmingTips, isHideLoading, List.countP_cons, List.countP_append]
  · cases netT <;>
      simp [getFarmingTips, runEffs, applyEff]

/-- A concrete state with a selected image and a non-blank chat input,
instantiating the hypotheses of the loading claim. -/
def loadedApp : AppState :=
  { sampleApp with
      chatInput := "hello",
      upload := { sampleApp.upload with inputFile := some imageFile } }

/-- Witness for claim C1 at a concrete state with a selected image and a
non-blank chat input. -/
theorem loading_cleared_claim_witness :
    jsTrim loadedApp.chatInput ≠ "" ∧
    loadedApp.upload.inputFile = some imageFile ∧
    ((sendMessage loadedApp (.thrown)).countP isHideLoading = 1 ∧
      (runEffs loadedApp (sendMessage loadedApp (.thrown))).overlayVisible = false) ∧
    ((analyzeCrop loadedApp (.failure "bad")).countP isHideLoading = 1 ∧
      (runEffs loadedApp (analyzeCrop loadedApp (.failure "bad"))).overlayVisible = false) ∧
    ((getFarmingTips loadedApp (.success (.str "water daily"))).countP isHideLoading = 1 ∧
      (runEffs loadedApp
          (getFarmingTips loadedApp (.success (.str "water daily")))).overlayVisible = false) :=
  ⟨by decide, rfl,
   (loading_cleared_claim loadedApp (.thrown) (.failure "bad") (.success (.str "water daily"))
     imageFile (by decide) rfl).1,
   (loading_cleared_claim loadedApp (.thrown) (.failure "bad") (.success (.str "water daily"))
     imageFile (by decide) rfl).2.1,
   (loading_cleared_claim loadedApp (.thrown) (.failure "bad") (.success (.str "water daily"))
     imageFile (by decide) rfl).2.2⟩

/-! ## Claim C2: lemmas about the tab controller -/

theorem countActive_cons (p : String × Bool) (l : List (String × Bool)) :
    countActive (p :: l) = countActive l + (if p.2 then 1 else 0) := by
  simp [countActive, List.countP_cons]

theorem countActive_deactivateAll (l : List (String × Bool)) :
    countActive (deactivateAll l) = 0 := by
  induction l with
  | nil => rfl
  | cons p rest ih =>
    show countActive ((p.1, false) :: deactivateAll rest) = 0
    rw [countActive_cons, ih]
    rfl

theorem countActive_deact_set (l : List (String × Bool)) :
    ∀ (i : Nat) (t : String), i < l.length →
      countActive ((deactivateAll l).set i (t, true)) = 1 := by
  induction l with
  | nil => intro i t h; simp at h
  | cons p rest ih =>
    intro i t h
    cases i with
    | zero =>
      show countActive ((t, true) :: deactivateAll rest) = 1
      rw [countActive_cons, countActive_deactivateAll]
      rfl
    | succ n =>
      show countActive ((p.1, false) :: (deactivateAll rest).set n (t, true)) = 1
      rw [countActive_cons, ih n t (by simpa using h)]
      rfl

theorem countActive_activateFirst (t : String) (l : List (String × Bool)) :
    t ∈ l.map Prod.fst → countActive (activateFirst t (deactivateAll l)) = 1 := by
  induction l with
  | nil => intro h; simp at h
  | cons p rest ih =>
    intro h
    by_cases hp : p.1 = t
    · show countActive (if p.1 = t then (p.1, true) :: deactivateAll rest
          else (p.1, false) :: activateFirst t (deactivateAll rest)) = 1
      rw [if_pos hp, countActive_cons, countActive_deactivateAll]
      rfl
    · have hmem : t ∈ rest.map Prod.fst := by
        rcases List.mem_map.mp h with ⟨q, hq, hqt⟩
        rcases List.mem_cons.mp hq with hq0 | hqr
        · exact absurd (hq0 ▸ hqt) hp
        · exact List.mem_map.mpr ⟨q, hqr, hqt⟩
      show countActive (if p.1 = t then (p.1, true) :: deactivateAll rest
          else (p.1, false) :: activateFirst t (deactivateAll rest)) = 1
      rw [if_neg hp, countActive_cons, ih hmem]
      rfl

theorem fst_deactivateAll (l : List (String × Bool)) :
    (deactivateAll l).map Prod.fst = l.map Prod.fst := by
  induction l with
  | nil => rfl
  | cons p rest ih =>
    show p.1 :: (deactivateAll rest).map Prod.fst = p.1 :: rest.map Prod.fst
    rw [ih]

theorem fst_activateFirst (t : String) (l : List (String × Bool)) :
    (activateFirst t l).map Prod.fst = l.map Prod.fst := by
  induction l with
  | nil => rfl
  | cons p rest ih =>
    by_cases hp : p.1 = t
    · show (if p.1 = t then (p.1, true) :: rest
          else p :: activateFirst t rest).map Prod.fst = p.1 :: rest.map Prod.fst
      rw [if_pos hp]
      rfl
    · show (if p.1 = t then (p.1, true) :: rest
          else p :: activateFirst t rest).map Prod.fst = p.1 :: rest.map Prod.fst
      rw [if_neg hp]
      show p.1 :: (activateFirst t rest).map Prod.fst = p.1 :: rest.map Prod.fst
      rw [ih]

theorem length_deactivateAll (l : List (String × Bool)) :
    (deactivateAll l).length = l.length := by
  simp [deactivateAll]

theorem getD_fst_map (l : List (String × Bool)) :
    ∀ i : Nat, (l.getD i ("", false)).1 = (l.map Prod.fst).getD i "" := by
  induction l with
  | nil => intro i; rfl
  | cons p rest ih =>
    intro i
    cases i with
    | zero => rfl
    | succ n => exact ih n

theorem fst_deact_set (l : List (String × Bool)) :
    ∀ (i : Nat) (b : Bool),
      ((deactivateAll l).set i ((l.getD i ("", false)).1, b)).map Prod.fst =
        l.map Prod.fst := by
  induction l with
  | nil => intro i b; rfl
  | cons p rest ih =>
    intro i b
    cases i with
    | zero => show p.1 :: (deactivateAll rest).map Prod.fst = p.1 :: rest.map Prod.fst
              rw [fst_deactivateAll]
    | succ n =>
      show p.1 :: ((deactivateAll rest).set n ((rest.getD n ("", false)).1, b)).map Prod.fst =
        p.1 :: rest.map Prod.fst
      rw [ih n b]

theorem deactivateAll_idem (l : List (String × Bool)) :
    deactivateAll (deactivateAll l) = deactivateAll l := by
  induction l with
  | nil => rfl
  | cons p rest ih =>
    show (p.1, false) :: deactivateAll (deactivateAll rest) = (p.1, false) :: deactivateAll rest
    rw [ih]

theorem deactivateAll_activateFirst (t : String) (l : List (String × Bool)) :
    deactivateAll (activateFirst t l) = deactivateAll l := by
  induction l with
  | nil => rfl
  | cons p rest ih =>
    by_cases hp : p.1 = t
    · show deactivateAll (if p.1 = t then (p.1, true) :: rest
          else p :: activateFirst t rest) = (p.1, false) :: deactivateAll rest
      rw [if_pos hp]
      rfl
    · show deactivateAll (if p.1 = t then (p.1, true) :: rest
          else p :: activateFirst t rest) = (p.1, false) :: deactivateAll rest
      rw [if_neg hp]
      show (p.1, false) :: deactivateAll (activateFirst t rest) = (p.1, false) :: deactivateAll rest
      rw [ih]

theorem deactivateAll_set (l : List (String × Bool)) :
    ∀ (i : Nat) (a : String × Bool),
      deactivateAll (l.set i a) = (deactivateAll l).set i (a.1, false) := by
  induction l with
  | nil => intro i a; rfl
  | cons p rest ih =>
    intro i a
    cases i with
    | zero => rfl
    | succ n =>
      show (p.1, false) :: deactivateAll (rest.set n a) =
        (p.1, false) :: (deactivateAll rest).set n (a.1, false)
      rw [ih n a]

theorem getD_deact_set_fst (l : List (String × Bool)) :
    ∀ i : Nat,
      (((deactivateAll l).set i ((l.getD i ("", false)).1, true)).getD i ("", false)).1 =
        (l.getD i ("", false)).1 := by
  induction l with
  | nil => intro i; rfl
  | cons p rest ih =>
    intro i
    cases i with
    | zero => rfl
    | succ n => exact ih n

theorem fst_clickTab_btns (d : TabsDom) (i : Nat) :
    (clickTab d i).btns.map Prod.fst = d.btns.map Prod.fst :=
  fst_deact_set d.btns i true

theorem fst_clickTab_panes (d : TabsDom) (i : Nat) :
    (clickTab d i).panes.map Prod.fst = d.panes.map Prod.fst := by
  show (activateFirst _ (deactivateAll d.panes)).map Prod.fst = d.panes.map Prod.fst
  rw [fst_activateFirst, fst_deactivateAll]

theorem length_clickTab_btns (d : TabsDom) (i : Nat) :
    (clickTab d i).btns.length = d.btns.length := by
  show ((deactivateAll d.btns).set i _).length = d.btns.length
  rw [List.length_set, length_deactivateAll]

theorem clickTab_idem (d : TabsDom) (i : Nat) :
    clickTab (clickTab d i) i = clickTab d i := by
  unfold clickTab
  simp only [getD_deact_set_fst, deactivateAll_set, deactivateAll_idem,
    deactivateAll_activateFirst, List.set_set]

theorem clickTab_one_active (d : TabsDom) (i : Nat) (hi : i < d.btns.length)
    (hp : (d.btns.getD i ("", false)).1 ∈ d.panes.map Prod.fst) :
    countActive (clickTab d i).btns = 1 ∧ countActive (clickTab d i).panes = 1 := by
  constructor
  · exact countActive_deact_set d.btns i _ hi
  · exact countActive_activateFirst _ d.panes hp

theorem runTabs_append (d : TabsDom) (cs1 cs2 : List Nat) :
    runTabs d (cs1 ++ cs2) = runTabs (runTabs d cs1) cs2 :=
  List.foldl_append clickTab d cs1 cs2

theorem runTabs_preserves (cs : List Nat) : ∀ d : TabsDom,
    (runTabs d cs).btns.map Prod.fst = d.btns.map Prod.fst ∧
    (runTabs d cs).panes.map Prod.fst = d.panes.map Prod.fst := by
  induction cs with
  | nil => intro d; exact ⟨rfl, rfl⟩
  | cons c rest ih =>
    intro d
    have h1 := ih (clickTab d c)
    constructor
    · show (runTabs (clickTab d c) rest).btns.map Prod.fst = d.btns.map Prod.fst
      rw [h1.1, fst_clickTab_btns]
    · show (runTabs (clickTab d c) rest).panes.map Prod.fst = d.panes.map Prod.fst
      rw [h1.2, fst_clickTab_panes]

theorem runTabs_btns_length (cs : List Nat) (d : TabsDom) :
    (runTabs d cs).btns.length = d.btns.length := by
  have h := congrArg List.length (runTabs_preserves cs d).1
  simpa using h

/-! ## Claim C2 -/

/-- Claim C2: over any sequence of tab-button clicks whose every click
names an existing button whose target pane exists, after each click
exactly one pane and exactly one button carry the active class, and a
repeated click on the same tab is idempotent. The sequence form quantifies
an arbitrary earlier click history before the inspected click. -/
theorem tabs_claim (d : TabsDom) (cs : List Nat) (c : Nat)
    (hall : ∀ x ∈ cs ++ [c], x < d.btns.length ∧
      (d.btns.getD x ("", false)).1 ∈ d.panes.map Prod.fst) :
    countActive (runTabs d (cs ++ [c])).btns = 1 ∧
    countActive (runTabs d (cs ++ [c])).panes = 1 ∧
    clickTab (clickTab d c) c = clickTab d c := by
  have hc := hall c (by simp)
  have hrun : runTabs d (cs ++ [c]) = clickTab (runTabs d cs) c := by
    rw [runTabs_append]; rfl
  have hpres := runTabs_preserves cs d
  have hlen : c < (runTabs d cs).btns.length := by
    rw [runTabs_btns_length]; exact hc.1
  have htgt : ((runTabs d cs).btns.getD c ("", false)).1 = (d.btns.getD c ("", false)).1 := by
    rw [getD_fst_map, getD_fst_map, hpres.1]
  have hmem : ((runTabs d cs).btns.getD c ("", false)).1 ∈
      (runTabs d cs).panes.map Prod.fst := by
    rw [htgt, hpres.2]; exact hc.2
  have hone := clickTab_one_active (runTabs d cs) c hlen hmem
  exact ⟨by rw [hrun]; exact hone.1, by rw [hrun]; exact hone.2, clickTab_idem d c⟩

/-- Witness for claim C2 at a concrete three-tab page and click history. -/
theorem tabs_claim_witness :
    (∀ x ∈ ([1, 0] ++ [2] : List Nat), x < sampleApp.tabs.btns.length ∧
      (sampleApp.tabs.btns.getD x ("", false)).1 ∈ sampleApp.tabs.panes.map Prod.fst) ∧
    countActive (runTabs sampleApp.tabs ([1, 0] ++ [2])).btns = 1 ∧
    countActive (runTabs sampleApp.tabs ([1, 0] ++ [2])).panes = 1 ∧
    clickTab (clickTab sampleApp.tabs 2) 2 = clickTab sampleApp.tabs 2 :=
  ⟨by decide,
   (tabs_claim sampleApp.tabs [1, 0] 2 (by decide)).1,
   (tabs_claim sampleApp.tabs [1, 0] 2 (by decide)).2.1,
   (tabs_claim sampleApp.tabs [1, 0] 2 (by decide)).2.2⟩

/-! ## Claim C9: lemmas about the session identifier -/

theorem sessionId_appStep (st : AppState) (a : UserAction) :
    (appStep st a).1.sessionId = st.sessionId := by
  cases a <;>
    first
      | rfl
      | (show (runEffs st _).sessionId = st.sessionId; rw [sessionId_runEffs])

theorem fetchChat_session_appStep (st : AppState) (a : UserAction) (req : ChatRequest) :
    Eff.fetchChat req ∈ (appStep st a).2 → req.session_id = st.sessionId := by
  cases a with
  | send net =>
    intro hmem
    by_cases h : jsTrim st.chatInput = ""
    · simp [appStep, sendMessage, h] at hmem
    · cases net <;> simp [appStep, sendMessage, h] at hmem <;> rw [hmem]
  | analyze net =>
    intro hmem
    cases hfile : st.upload.inputFile with
    | none => simp [appStep, analyzeCrop, hfile] at hmem
    | some f => cases net <;> simp [appStep, analyzeCrop, hfile] at hmem
  | getTips net =>
    intro hmem
    cases net <;> simp [appStep, getFarmingTips] at hmem
  | clickTabBtn i => intro hmem; simp [appStep] at hmem
  | dropUpload f => intro hmem; simp [appStep] at hmem
  | pickUpload f => intro hmem; simp [appStep] at hmem
  | removeImage => intro hmem; simp [appStep] at hmem
  | typeChat s => intro hmem; simp [appStep] at hmem
  | typeLocation s => intro hmem; simp [appStep] at hmem
  | selectCrop s => intro hmem; simp [appStep] at hmem
  | selectSeason s => intro hmem; simp [appStep] at hmem
  | toggleLanguage => intro hmem; simp [appStep] at hmem

theorem runActions_sessionId (actions : List UserAction) : ∀ st : AppState,
    (runActions st actions).sessionId = st.sessionId := by
  induction actions with
  | nil => intro st; rfl
  | cons a rest ih =>
    intro st
    show (runActions (appStep st a).1 rest).sessionId = st.sessionId
    rw [ih, sessionId_appStep]

theorem traceActions_fetchChat (actions : List UserAction) :
    ∀ (st : AppState) (req : ChatRequest),
      Eff.fetchChat req ∈ traceActions st actions → req.session_id = st.sessionId := by
  induction actions with
  | nil => intro st req h; simp [traceActions] at h
  | cons a rest ih =>
    intro st req h
    have hsplit : Eff.fetchChat req ∈ (appStep st a).2 ∨
        Eff.fetchChat req ∈ traceActions (appStep st a).1 rest := by
      simpa [traceActions] using List.mem_append.mp h
    rcases hsplit with h1 | h2
    · exact fetchChat_session_appStep st a req h1
    · rw [ih (appStep st a).1 req h2, sessionId_appStep]

/-! ## Claim C9 -/

/-- Claim C9: the session identifier generated at page load has the shape
session underscore timestamp underscore random suffix; it is stored once
at initialization, no later user action ever rewrites it, and every chat
request emitted over the whole page lifetime carries exactly that value in
its session id field. -/
theorem session_claim (ts : Nat) (rand : String) (st0 : AppState)
    (actions : List UserAction) :
    generateSessionId ts rand = "session_" ++ toString ts ++ "_" ++ rand ∧
    (initState ts rand st0).sessionId = generateSessionId ts rand ∧
    (runActions (initState ts rand st0) actions).sessionId = generateSessionId ts rand ∧
    (∀ req, Eff.fetchChat req ∈ traceActions (initState ts rand st0) actions →
      req.session_id = generateSessionId ts rand) := by
  refine ⟨rfl, rfl, ?_, ?_⟩
  · rw [runActions_sessionId]; rfl
  · intro req h
    rw [traceActions_fetchChat actions _ req h]; rfl
